import Mathlib

/-!
Shallow embedding of the svc-gis PostGIS layer
(src/server/src/postgis/{aircraft,flight,routing}.rs).

Conventions of the embedding:
* `chrono::DateTime<Utc>` timestamps are rationals (seconds since epoch);
  the prost wire timestamps are `Option Timestamp` and their conversion to
  `DateTime` is total in the model.
* `f32`/`f64` fields are rationals.
* The PostGIS engine is an external collaborator: its geometric predicates
  (`ST_Intersects` on a linestring, `ST_3DDWithin`) and the distance metric
  used by the segmentizer enter as explicit function parameters; the point-in
  -envelope case of `ST_Intersects` is spelled out exactly.
* The connection pool and the statement machinery are represented by an
  oracle of booleans saying which DB step succeeds; a transaction stages its
  writes and installs them only at commit, which is the transactional
  semantics the spec requires of the engine.
-/

deriving instance DecidableEq for Except

attribute [local semireducible] Rat.add Rat.mul Rat.sub Rat.inv

namespace SvcGis

/-- Timestamps: `DateTime<Utc>` modelled as rational seconds since epoch. -/
abbrev Timestamp := ℚ

/-- A 3D point (`postgis::ewkb::PointZ`); the constant `srid = 4326` tag is
omitted. `x` is longitude, `y` latitude, `z` altitude in meters. -/
structure PointZ where
  x : ℚ
  y : ℚ
  z : ℚ
  deriving DecidableEq

/-- A wire-level point (`grpc PointZ { latitude, longitude, altitude_meters }`). -/
structure GrpcPointZ where
  latitude : ℚ
  longitude : ℚ
  altitude_meters : ℚ
  deriving DecidableEq

/-- Errors of the aircraft writer (`AircraftError` in aircraft.rs). -/
inductive AircraftError
  | noAircraft
  | aircraftId
  | location
  | time
  | label
  | client
  | dbError
  deriving DecidableEq

/-- Errors of the flight writer (`FlightError` in flight.rs). -/
inductive FlightError
  | aircraftId
  | aircraftType
  | location
  | time
  | label
  | client
  | dbError
  | segments
  deriving DecidableEq

/-- Errors of the routing layer (`PathError` in routing.rs). -/
inductive PathError
  | noPath
  | invalidStartNode
  | invalidEndNode
  | invalidStartTime
  | invalidEndTime
  | invalidTimeWindow
  | client
  | unknown
  deriving DecidableEq

/-- The umbrella error (`PostgisError` in postgis/mod.rs, the variants used by
the files under src/). -/
inductive PostgisError
  | aircraft (e : AircraftError)
  | flightPath (e : FlightError)
  deriving DecidableEq

/-- One character of the class of `IDENTIFIER_REGEX = ^[-0-9A-Za-z_.]{1,255}$`
(aircraft.rs; `FLIGHT_IDENTIFIER_REGEX` in flight.rs is the same pattern). -/
def identifierCharOk (c : Char) : Bool :=
  c == '-' || (decide ('0' ≤ c) && decide (c ≤ '9'))
    || (decide ('A' ≤ c) && decide (c ≤ 'Z'))
    || (decide ('a' ≤ c) && decide (c ≤ 'z'))
    || c == '_' || c == '.'

/-- Modelled from the spec: `utils::check_string` (utils.rs is not under
src/), applied to the one regex both call sites use. Per §4.1 it succeeds iff
the string matches `^[-0-9A-Za-z_.]{1,255}$`: between 1 and 255 characters,
all from the class. -/
def check_string (s : String) : Bool :=
  decide (1 ≤ s.length) && decide (s.length ≤ 255) && s.toList.all identifierCharOk

/-- `check_identifier` (aircraft.rs): success as `true`. -/
def check_identifier (s : String) : Bool :=
  check_string s

/-- `check_flight_identifier` (flight.rs): success as `true`. -/
def check_flight_identifier (s : String) : Bool :=
  check_string s

/-- Modelled from the spec: `utils::validate_pointz` (utils.rs is not under
src/). Per §4.1: `-90 ≤ y ≤ 90`, `-180 ≤ x ≤ 180`, `z` finite (always true
over ℚ). -/
def validate_pointz (p : PointZ) : Bool :=
  decide (-90 ≤ p.y) && decide (p.y ≤ 90) && decide (-180 ≤ p.x) && decide (p.x ≤ 180)

/-- Modelled from the spec: the `AircraftType` enum (src/types.rs is not under
src/). §4.1: enum codes are validated by a total mapping from a small integer
domain; the exact variant list beyond `Undeclared` (the DDL default) and
`Aeroplane` (used by tests) is immaterial to the claims. -/
inductive AircraftType
  | undeclared
  | aeroplane
  | rotorcraft
  deriving DecidableEq

/-- Modelled from the spec: `FromPrimitive::from_i32` for `AircraftType`; an
unknown code is `none`, never silently coerced (§4.1). -/
def AircraftType.fromI32 : Int → Option AircraftType
  | 0 => some .undeclared
  | 1 => some .aeroplane
  | 2 => some .rotorcraft
  | _ => none

/-! Wire-level telemetry records (the prost request types used by aircraft.rs). -/

/-- `AircraftId` request record. -/
structure ReqAircraftId where
  identifier : String
  aircraft_type : Int
  timestamp_network : Option Timestamp
  deriving DecidableEq

/-- `AircraftPosition` request record. -/
structure ReqAircraftPos where
  identifier : String
  geom : Option GrpcPointZ
  timestamp_network : Option Timestamp
  timestamp_aircraft : Option Timestamp
  deriving DecidableEq

/-- `AircraftVelocity` request record. -/
structure ReqAircraftVelocity where
  identifier : String
  velocity_horizontal_ground_mps : ℚ
  velocity_vertical_mps : ℚ
  track_angle_degrees : ℚ
  timestamp_network : Option Timestamp
  deriving DecidableEq

/-! Validated internal records (the private structs of aircraft.rs). -/

/-- Validated identity record. -/
structure AircraftId where
  identifier : String
  aircraft_type : AircraftType
  timestamp : Timestamp
  deriving DecidableEq

/-- Validated position record. -/
structure AircraftPosition where
  identifier : String
  geom : PointZ
  timestamp : Timestamp
  deriving DecidableEq

/-- Validated velocity record. -/
structure AircraftVelocity where
  identifier : String
  velocity_horizontal_ground_mps : ℚ
  velocity_vertical_mps : ℚ
  track_angle_degrees : ℚ
  timestamp : Timestamp
  deriving DecidableEq

/-- `TryFrom<ReqAircraftPos> for AircraftPosition` (aircraft.rs): identifier
check (`Label`), geometry presence and range check (`Location`), network
timestamp presence (`Time`). -/
def AircraftPosition.tryFrom (craft : ReqAircraftPos) : Except PostgisError AircraftPosition :=
  if !(check_identifier craft.identifier) then
    .error (.aircraft .label)
  else
    match craft.geom with
    | none => .error (.aircraft .location)
    | some g =>
      let geom : PointZ := { x := g.longitude, y := g.latitude, z := g.altitude_meters }
      if !(validate_pointz geom) then
        .error (.aircraft .location)
      else
        match craft.timestamp_network with
        | none => .error (.aircraft .time)
        | some ts => .ok { identifier := craft.identifier, geom := geom, timestamp := ts }

/-- `TryFrom<ReqAircraftId> for AircraftId` (aircraft.rs): identifier check
(`Label`), enum code (`AircraftId` on unknown code), timestamp (`Time`). -/
def AircraftId.tryFrom (craft : ReqAircraftId) : Except PostgisError AircraftId :=
  if !(check_identifier craft.identifier) then
    .error (.aircraft .label)
  else
    match AircraftType.fromI32 craft.aircraft_type with
    | none => .error (.aircraft .aircraftId)
    | some aircraft_type =>
      match craft.timestamp_network with
      | none => .error (.aircraft .time)
      | some ts =>
        .ok { identifier := craft.identifier, aircraft_type := aircraft_type, timestamp := ts }

/-- `TryFrom<ReqAircraftVelocity> for AircraftVelocity` (aircraft.rs):
identifier check (`Label`), timestamp (`Time`). -/
def AircraftVelocity.tryFrom (craft : ReqAircraftVelocity) :
    Except PostgisError AircraftVelocity :=
  if !(check_identifier craft.identifier) then
    .error (.aircraft .label)
  else
    match craft.timestamp_network with
    | none => .error (.aircraft .time)
    | some ts =>
      .ok { identifier := craft.identifier,
            velocity_horizontal_ground_mps := craft.velocity_horizontal_ground_mps,
            velocity_vertical_mps := craft.velocity_vertical_mps,
            track_angle_degrees := craft.track_angle_degrees,
            timestamp := ts }

/-! The `arrow.aircraft` table. -/

/-- One row of `arrow.aircraft`. `session_id` and `simulated` are referenced
by the `get_flights` SQL although the DDL in aircraft.rs does not declare
them (spec §9 open question); they default to NULL / FALSE on insert. -/
structure AircraftRow where
  identifier : String
  aircraft_type : AircraftType
  velocity_horizontal_ground_mps : Option ℚ
  velocity_vertical_mps : Option ℚ
  track_angle_degrees : Option ℚ
  geom : Option PointZ
  last_identifier_update : Option Timestamp
  last_position_update : Option Timestamp
  last_velocity_update : Option Timestamp
  session_id : Option String
  simulated : Bool
  deriving DecidableEq

/-- A freshly inserted row: every column not named by the INSERT takes its
DDL default (`aircraft_type` defaults to `Undeclared`, the rest are NULL). -/
def AircraftRow.fresh (identifier : String) : AircraftRow :=
  { identifier := identifier
    aircraft_type := .undeclared
    velocity_horizontal_ground_mps := none
    velocity_vertical_mps := none
    track_angle_degrees := none
    geom := none
    last_identifier_update := none
    last_position_update := none
    last_velocity_update := none
    session_id := none
    simulated := false }

/-- The identity-stream UPSERT (`ON CONFLICT (identifier) DO UPDATE SET
aircraft_type, last_identifier_update`). -/
def upsertId (tbl : List AircraftRow) (r : AircraftId) : List AircraftRow :=
  if tbl.any (fun row => row.identifier == r.identifier) then
    tbl.map fun row =>
      if row.identifier == r.identifier then
        { row with aircraft_type := r.aircraft_type, last_identifier_update := some r.timestamp }
      else row
  else
    tbl ++ [{ AircraftRow.fresh r.identifier with
              aircraft_type := r.aircraft_type, last_identifier_update := some r.timestamp }]

/-- The position-stream UPSERT (`ON CONFLICT (identifier) DO UPDATE SET
geom, last_position_update`). -/
def upsertPosition (tbl : List AircraftRow) (r : AircraftPosition) : List AircraftRow :=
  if tbl.any (fun row => row.identifier == r.identifier) then
    tbl.map fun row =>
      if row.identifier == r.identifier then
        { row with geom := some r.geom, last_position_update := some r.timestamp }
      else row
  else
    tbl ++ [{ AircraftRow.fresh r.identifier with
              geom := some r.geom, last_position_update := some r.timestamp }]

/-- The velocity-stream UPSERT (`ON CONFLICT (identifier) DO UPDATE SET
velocity_horizontal_ground_mps, velocity_vertical_mps, track_angle_degrees,
last_velocity_update`). -/
def upsertVelocity (tbl : List AircraftRow) (r : AircraftVelocity) : List AircraftRow :=
  if tbl.any (fun row => row.identifier == r.identifier) then
    tbl.map fun row =>
      if row.identifier == r.identifier then
        { row with
          velocity_horizontal_ground_mps := some r.velocity_horizontal_ground_mps,
          velocity_vertical_mps := some r.velocity_vertical_mps,
          track_angle_degrees := some r.track_angle_degrees,
          last_velocity_update := some r.timestamp }
      else row
  else
    tbl ++ [{ AircraftRow.fresh r.identifier with
              velocity_horizontal_ground_mps := some r.velocity_horizontal_ground_mps,
              velocity_vertical_mps := some r.velocity_vertical_mps,
              track_angle_degrees := some r.track_angle_degrees,
              last_velocity_update := some r.timestamp }]

/-- Which steps of a DB session succeed: pool acquisition, transaction
creation, statement preparation, the n-th statement execution, commit. -/
structure DbOracle where
  poolGet : Bool
  transactionCreate : Bool
  prepare : Bool
  execute : Nat → Bool
  commit : Bool

/-- The per-record execution loop shared by the three telemetry writers: the
i-th `transaction.execute` either applies the UPSERT to the staged table or
aborts the whole batch with `DBError`. -/
def runBatch {α : Type} (o : DbOracle) (upsert : List AircraftRow → α → List AircraftRow) :
    Nat → List α → List AircraftRow → Except PostgisError (List AircraftRow)
  | _, [], tbl => .ok tbl
  | i, r :: rest, tbl =>
    if o.execute i then runBatch o upsert (i + 1) rest (upsert tbl r)
    else .error (.aircraft .dbError)

/-- `update_aircraft_id` (aircraft.rs): empty batch → `NoAircraft` before any
DB step; conversion errors propagate; pool failure → `Client`; transaction,
prepare, execute and commit failures → `DBError`. On success the staged
table is committed. -/
def update_aircraft_id (o : DbOracle) (tbl : List AircraftRow) (aircraft : List ReqAircraftId) :
    Except PostgisError (List AircraftRow) :=
  if aircraft.isEmpty then .error (.aircraft .noAircraft)
  else
    match aircraft.mapM AircraftId.tryFrom with
    | .error e => .error e
    | .ok recs =>
      if !o.poolGet then .error (.aircraft .client)
      else if !o.transactionCreate then .error (.aircraft .dbError)
      else if !o.prepare then .error (.aircraft .dbError)
      else
        match runBatch o upsertId 0 recs tbl with
        | .error e => .error e
        | .ok tbl2 => if !o.commit then .error (.aircraft .dbError) else .ok tbl2

/-- `update_aircraft_position` (aircraft.rs); same shape as
`update_aircraft_id` with the position UPSERT. -/
def update_aircraft_position (o : DbOracle) (tbl : List AircraftRow)
    (aircraft : List ReqAircraftPos) : Except PostgisError (List AircraftRow) :=
  if aircraft.isEmpty then .error (.aircraft .noAircraft)
  else
    match aircraft.mapM AircraftPosition.tryFrom with
    | .error e => .error e
    | .ok recs =>
      if !o.poolGet then .error (.aircraft .client)
      else if !o.transactionCreate then .error (.aircraft .dbError)
      else if !o.prepare then .error (.aircraft .dbError)
      else
        match runBatch o upsertPosition 0 recs tbl with
        | .error e => .error e
        | .ok tbl2 => if !o.commit then .error (.aircraft .dbError) else .ok tbl2

/-- `update_aircraft_velocity` (aircraft.rs); same shape with the velocity
UPSERT. -/
def update_aircraft_velocity (o : DbOracle) (tbl : List AircraftRow)
    (aircraft : List ReqAircraftVelocity) : Except PostgisError (List AircraftRow) :=
  if aircraft.isEmpty then .error (.aircraft .noAircraft)
  else
    match aircraft.mapM AircraftVelocity.tryFrom with
    | .error e => .error e
    | .ok recs =>
      if !o.poolGet then .error (.aircraft .client)
      else if !o.transactionCreate then .error (.aircraft .dbError)
      else if !o.prepare then .error (.aircraft .dbError)
      else
        match runBatch o upsertVelocity 0 recs tbl with
        | .error e => .error e
        | .ok tbl2 => if !o.commit then .error (.aircraft .dbError) else .ok tbl2

/-- `get_aircraft_pointz` (aircraft.rs): `SELECT geom WHERE identifier = $1`;
pool failure → `Client`; zero rows (`query_one`) or a NULL `geom`
(`try_get::<PointZ>`) → `DBError`. -/
def get_aircraft_pointz (o : DbOracle) (tbl : List AircraftRow) (identifier : String) :
    Except PostgisError PointZ :=
  if !o.poolGet then .error (.aircraft .client)
  else
    match tbl.find? (fun row => row.identifier == identifier) with
    | none => .error (.aircraft .dbError)
    | some row =>
      match row.geom with
      | none => .error (.aircraft .dbError)
      | some g => .ok g

/-! The segmentizer. -/

/-- `MAX_FLIGHT_SEGMENT_LENGTH_METERS` (flight.rs). -/
def MAX_FLIGHT_SEGMENT_LENGTH_METERS : ℚ := 40

/-- One flight-path segment produced by the segmentizer: a two-vertex 3D
linestring with its own time window. -/
structure FlightSegment where
  geomA : PointZ
  geomB : PointZ
  time_start : Timestamp
  time_end : Timestamp
  deriving DecidableEq

/-- Errors of the segmentizer, per spec §4.5. -/
inductive SegmentizeError
  | time
  | segments
  deriving DecidableEq

/-- Linear interpolation of one coordinate at fraction `j / k`. -/
def lerpQ (a b : ℚ) (j k : ℕ) : ℚ :=
  a + (b - a) * j / k

/-- Linear interpolation of a point at fraction `j / k` along the edge. -/
def lerpPoint (a b : PointZ) (j k : ℕ) : PointZ :=
  { x := lerpQ a.x b.x j k, y := lerpQ a.y b.y j k, z := lerpQ a.z b.z j k }

/-- The timestamp at cumulative arc length `s` out of `sTotal`, interpolated
linearly from `t0` to `t1` (spec §4.5 step 3). -/
def timeAt (t0 t1 sTotal s : ℚ) : ℚ :=
  t0 + (t1 - t0) * (s / sTotal)

/-- The sub-segments of one original edge `(a, b)` of length `dist a b`,
split into `⌈d / lmax⌉` equal sub-edges (spec §4.5 step 2), starting at
cumulative length `sStart`. -/
def edgeSegments (dist : PointZ → PointZ → ℚ) (lmax t0 t1 sTotal sStart : ℚ)
    (a b : PointZ) : List FlightSegment :=
  let d := dist a b
  let k := (⌈d / lmax⌉).toNat
  (List.range k).map fun j =>
    { geomA := lerpPoint a b j k
      geomB := lerpPoint a b (j + 1) k
      time_start := timeAt t0 t1 sTotal (sStart + d * j / k)
      time_end := timeAt t0 t1 sTotal (sStart + d * (j + 1) / k) }

/-- Emits the sub-edges of the edges in order, threading the cumulative arc
length (spec §4.5 step 4). -/
def segmentsFrom (dist : PointZ → PointZ → ℚ) (lmax t0 t1 sTotal : ℚ) :
    ℚ → List (PointZ × PointZ) → List FlightSegment
  | _, [] => []
  | sStart, (a, b) :: rest =>
    edgeSegments dist lmax t0 t1 sTotal sStart a b ++
      segmentsFrom dist lmax t0 t1 sTotal (sStart + dist a b) rest

/-- Total arc length of the polyline edges. -/
def totalLength (dist : PointZ → PointZ → ℚ) (edges : List (PointZ × PointZ)) : ℚ :=
  (edges.map fun e => dist e.1 e.2).sum

/-- Modelled from the spec: `utils::segmentize` (utils.rs is not under src/).
Per §4.5: an inverted window `T1 < T0` is an error raised before any
geometric work, fewer than two points or a degenerate zero-length path are
`Segments` errors, and otherwise each edge is cut into `⌈d / lmax⌉` equal
sub-edges whose time windows interpolate `[t0, t1]` by cumulative length
fraction. The distance metric is a parameter: §9 leaves it an open question
(planar vs. geodesic), and no claim depends on its value. -/
def segmentize (dist : PointZ → PointZ → ℚ) (points : List PointZ) (t0 t1 : Timestamp)
    (lmax : ℚ) : Except SegmentizeError (List FlightSegment) :=
  if t1 < t0 then .error .time
  else if points.length < 2 then .error .segments
  else
    let edges := points.zip points.tail
    let sTotal := totalLength dist edges
    if sTotal = 0 then .error .segments
    else .ok (segmentsFrom dist lmax t0 t1 sTotal 0 edges)

/-! The `arrow.flights` and `arrow.flight_segments` tables. -/

/-- `ST_Envelope` of a geometry: its 2D axis-aligned bounding box. -/
structure Envelope where
  min_x : ℚ
  min_y : ℚ
  max_x : ℚ
  max_y : ℚ
  deriving DecidableEq

/-- `ST_Envelope` over the vertices of a linestring (the DB computes this;
the engine semantics the spec requires of it). -/
def stEnvelope : List PointZ → Envelope
  | [] => { min_x := 0, min_y := 0, max_x := 0, max_y := 0 }
  | p :: ps =>
    ps.foldl
      (fun e q =>
        { min_x := min e.min_x q.x, min_y := min e.min_y q.y,
          max_x := max e.max_x q.x, max_y := max e.max_y q.y })
      { min_x := p.x, min_y := p.y, max_x := p.x, max_y := p.y }

/-- One row of `arrow.flights`. -/
structure FlightRow where
  flight_identifier : String
  aircraft_identifier : Option String
  aircraft_type : AircraftType
  simulated : Bool
  geom : Option (List PointZ)
  isa : Envelope
  time_start : Option Timestamp
  time_end : Option Timestamp
  deriving DecidableEq

/-- One row of `arrow.flight_segments`. -/
structure FlightSegmentRow where
  flight_identifier : String
  geom : Option (PointZ × PointZ)
  time_start : Option Timestamp
  time_end : Option Timestamp
  deriving DecidableEq

/-- The whole persisted state the core owns. -/
structure GisDb where
  aircraft : List AircraftRow
  flights : List FlightRow
  flight_segments : List FlightSegmentRow
  deriving DecidableEq

/-- The flights UPSERT: `ON CONFLICT (flight_identifier) DO UPDATE` rewrites
every non-key column, so a conflict replaces the whole row. -/
def upsertFlight (flights : List FlightRow) (row : FlightRow) : List FlightRow :=
  if flights.any (fun f => f.flight_identifier == row.flight_identifier) then
    flights.map fun f => if f.flight_identifier == row.flight_identifier then row else f
  else flights ++ [row]

/-- The segments-table row written for one computed segment of flight `fid`. -/
def segRow (fid : String) (s : FlightSegment) : FlightSegmentRow :=
  { flight_identifier := fid
    geom := some (s.geomA, s.geomB)
    time_start := some s.time_start
    time_end := some s.time_end }

/-- The `UpdateFlightPathRequest` wire record. -/
structure UpdateFlightPathRequest where
  flight_identifier : Option String
  aircraft_identifier : Option String
  aircraft_type : Int
  simulated : Bool
  timestamp_start : Option Timestamp
  timestamp_end : Option Timestamp
  path : List GrpcPointZ
  deriving DecidableEq

/-- `validate_flight_path` (flight.rs): a missing or regex-rejected
`flight_identifier` is `Label`; the model returns the checked identifier. -/
def validate_flight_path (item : UpdateFlightPathRequest) : Except PostgisError String :=
  match item.flight_identifier with
  | none => .error (.flightPath .label)
  | some identifier =>
    if !(check_flight_identifier identifier) then .error (.flightPath .label)
    else .ok identifier

/-- Modelled from the spec: the `TryFrom<GrpcPointZ> for PointZ` conversion
used on `flight.path` (defined outside src/); §4.3: coordinates of every
request type are range-checked, failure maps to `Location` in the caller. -/
def PointZ.tryFromGrpc (g : GrpcPointZ) : Option PointZ :=
  let p : PointZ := { x := g.longitude, y := g.latitude, z := g.altitude_meters }
  if validate_pointz p then some p else none

/-- Which steps of the flight writer's DB session succeed. `poolHandle` is
`DEADPOOL_POSTGIS.get()` (the process-wide handle), distinct from acquiring
a session from the pool. Execution indices: 0 = flight UPSERT, 1 = segments
DELETE, 2.. = segment INSERTs. -/
structure FlightOracle where
  poolHandle : Bool
  poolGet : Bool
  transactionCreate : Bool
  execute : Nat → Bool
  commit : Bool

/-- The segment INSERT loop inside the transaction: each row is appended to
the staged table, any execution failure aborts with `DBError`. -/
def insertSegments (o : FlightOracle) :
    Nat → List FlightSegmentRow → GisDb → Except PostgisError GisDb
  | _, [], db => .ok db
  | i, r :: rest, db =>
    if o.execute i then
      insertSegments o (i + 1) rest
        { db with flight_segments := db.flight_segments ++ [r] }
    else .error (.flightPath .dbError)

/-- `update_flight_path` (flight.rs), step for step: identifier validation
(`Label`), timestamp presence (`Time`), enum code (`AircraftType`), pool
handle (`DBError`), pool session (`Client`), transaction creation
(`Client`), path conversion (`Location`), segmentization (every segmentizer
error becomes `Segments`); then, inside the transaction: flight UPSERT with
`isa = ST_Envelope($7)` computed in the same statement, deletion of all
prior segments of this flight, insertion of the fresh segments, commit.
Statement failures map to `DBError`; an error leaves the state untouched
(the transaction is never committed). -/
def update_flight_path (dist : PointZ → PointZ → ℚ) (o : FlightOracle) (db : GisDb)
    (flight : UpdateFlightPathRequest) : Except PostgisError GisDb :=
  match validate_flight_path flight with
  | .error e => .error e
  | .ok fid =>
    match flight.timestamp_start with
    | none => .error (.flightPath .time)
    | some timestamp_start =>
      match flight.timestamp_end with
      | none => .error (.flightPath .time)
      | some timestamp_end =>
        match AircraftType.fromI32 flight.aircraft_type with
        | none => .error (.flightPath .aircraftType)
        | some aircraft_type =>
          if !o.poolHandle then .error (.flightPath .dbError)
          else if !o.poolGet then .error (.flightPath .client)
          else if !o.transactionCreate then .error (.flightPath .client)
          else
            match flight.path.mapM PointZ.tryFromGrpc with
            | none => .error (.flightPath .location)
            | some points =>
              match segmentize dist points timestamp_start timestamp_end
                  MAX_FLIGHT_SEGMENT_LENGTH_METERS with
              | .error _ => .error (.flightPath .segments)
              | .ok segments =>
                if !(o.execute 0) then .error (.flightPath .dbError)
                else
                  let row : FlightRow :=
                    { flight_identifier := fid
                      aircraft_identifier := flight.aircraft_identifier
                      aircraft_type := aircraft_type
                      simulated := flight.simulated
                      geom := some points
                      isa := stEnvelope points
                      time_start := some timestamp_start
                      time_end := some timestamp_end }
                  let db1 := { db with flights := upsertFlight db.flights row }
                  if !(o.execute 1) then .error (.flightPath .dbError)
                  else
                    let db2 := { db1 with
                      flight_segments := db1.flight_segments.filter
                        (fun s => !(s.flight_identifier == fid)) }
                    match insertSegments o 2 (segments.map (segRow fid)) db2 with
                    | .error e => .error e
                    | .ok db3 =>
                      if !o.commit then .error (.flightPath .dbError) else .ok db3

/-! The intersection query layer (flight.rs). -/

/-- The `GetFlightsRequest` wire record: a 2D window and a time interval. -/
structure GetFlightsRequest where
  window_min_x : ℚ
  window_min_y : ℚ
  window_max_x : ℚ
  window_max_y : ℚ
  time_start : Option Timestamp
  time_end : Option Timestamp
  deriving DecidableEq

/-- One row of the first `get_flights` statement (the aliased SELECT list). -/
structure GetFlightsRow where
  session_id : Option String
  aircraft_id : Option String
  aircraft_type : AircraftType
  simulated : Bool
  deriving DecidableEq

/-- `ST_Envelope($1)` of the two-point window linestring the code builds from
the request corners. -/
def windowEnvelope (r : GetFlightsRequest) : Envelope :=
  stEnvelope
    [{ x := r.window_min_x, y := r.window_min_y, z := 0 },
     { x := r.window_max_x, y := r.window_max_y, z := 0 }]

/-- `ST_Intersects` of an envelope with a point: containment in the closed
box (exact engine semantics for this case). -/
def pointInEnvelope (e : Envelope) (p : PointZ) : Bool :=
  decide (e.min_x ≤ p.x) && decide (p.x ≤ e.max_x) &&
    decide (e.min_y ≤ p.y) && decide (p.y ≤ e.max_y)

/-- The LEFT JOIN condition: `flights.aircraft_identifier =
aircraft.identifier OR flights.flight_identifier = aircraft.session_id`
(SQL equality with a NULL operand is not satisfied). -/
def joinMatches (f : FlightRow) (a : AircraftRow) : Bool :=
  f.aircraft_identifier == some a.identifier || a.session_id == some f.flight_identifier

/-- `FROM aircraft LEFT JOIN flights ON joinMatches`: every aircraft row is
kept; an aircraft with no matching flight pairs with NULL. -/
def leftJoinFlights (db : GisDb) : List (AircraftRow × Option FlightRow) :=
  db.aircraft.flatMap fun a =>
    match db.flights.filter (fun f => joinMatches f a) with
    | [] => [(a, none)]
    | fs => fs.map fun f => (a, some f)

/-- The grounded-aircraft disjunct of the WHERE clause: the aircraft position
intersects the window envelope and `last_position_update` lies in the
interval; a NULL `geom` or NULL timestamp does not satisfy it. -/
def aircraftCond (env : Envelope) (t2 t3 : Timestamp) (a : AircraftRow) : Bool :=
  (match a.geom with
   | none => false
   | some p => pointInEnvelope env p) &&
  (match a.last_position_update with
   | none => false
   | some t => decide (t2 ≤ t) && decide (t ≤ t3))

/-- The flight disjunct of the WHERE clause, on the joined (possibly NULL)
flight row: `geom IS NOT NULL AND ST_Intersects(envelope, geom) AND time_end
>= $2 AND time_start <= $3`. `lineIntersects` is the engine's
linestring-vs-envelope `ST_Intersects`. -/
def flightCond (lineIntersects : Envelope → List PointZ → Bool) (env : Envelope)
    (t2 t3 : Timestamp) : Option FlightRow → Bool
  | none => false
  | some f =>
    (match f.geom with
     | none => false
     | some g => lineIntersects env g) &&
    (match f.time_end with
     | none => false
     | some te => decide (t2 ≤ te)) &&
    (match f.time_start with
     | none => false
     | some ts => decide (ts ≤ t3))

/-- The SELECT-list projection of one join row. -/
def getFlightsProj (j : AircraftRow × Option FlightRow) : GetFlightsRow :=
  { session_id := j.2.map FlightRow.flight_identifier
    aircraft_id := some j.1.identifier
    aircraft_type := j.1.aircraft_type
    simulated := j.1.simulated }

/-- The first statement of `get_flights` (flight.rs): missing interval bounds
→ `Time`; pool failure → `Client`; prepare or query failure → `DBError`;
otherwise the LEFT JOIN rows satisfying the disjunction, projected. The
per-row telemetry-snapshot pass that follows it in the code is outside this
model. -/
def get_flights (lineIntersects : Envelope → List PointZ → Bool) (o : DbOracle)
    (db : GisDb) (request : GetFlightsRequest) : Except FlightError (List GetFlightsRow) :=
  match request.time_start with
  | none => .error .time
  | some t2 =>
    match request.time_end with
    | none => .error .time
    | some t3 =>
      if !o.poolGet then .error .client
      else if !o.prepare then .error .dbError
      else if !(o.execute 0) then .error .dbError
      else
        let env := windowEnvelope request
        .ok (((leftJoinFlights db).filter fun j =>
            aircraftCond env t2 t3 j.1 || flightCond lineIntersects env t2 t3 j.2).map
          getFlightsProj)

/-- The time filter of the segments CTE in `get_flight_intersection_stmt`:
`(time_start <= $4 OR time_start IS NULL) AND (time_end >= $3 OR time_end IS
NULL)`. -/
def segmentTimeOverlap (s : FlightSegmentRow) (t3 t4 : Timestamp) : Bool :=
  (match s.time_start with
   | none => true
   | some ts => decide (ts ≤ t4)) &&
  (match s.time_end with
   | none => true
   | some te => decide (t3 ≤ te))

/-- The spatial filter of the segments CTE; `within` is the engine's
`ST_3DDWithin` after transform to SRID 4978, against the fixed query
geometry and radius. A NULL segment geometry does not satisfy it. -/
def segmentWithin (within : PointZ × PointZ → Bool) (s : FlightSegmentRow) : Bool :=
  match s.geom with
  | none => false
  | some g => within g

/-- The result rows of the statement prepared by `get_flight_intersection_stmt`
(flight.rs): flights having a segment that passes the time filter and the
3D proximity filter, restricted to `simulated = FALSE`, `LIMIT 1`. -/
def flight_intersection (within : PointZ × PointZ → Bool) (db : GisDb)
    (t3 t4 : Timestamp) : List FlightRow :=
  let segs := db.flight_segments.filter fun s =>
    segmentTimeOverlap s t3 t4 && segmentWithin within s
  (db.flights.filter fun f =>
    segs.any (fun s => s.flight_identifier == f.flight_identifier) &&
      f.simulated == false).take 1

/-! The routing layer (routing.rs). -/

/-- `ALTITUDE_HARDCODE` (routing.rs). -/
def ALTITUDE_HARDCODE : ℚ := 1000

/-- `chrono::Duration::days(1)` in seconds: the default routing horizon. -/
def ONE_DAY : ℚ := 86400

/-- `PathType` (routing.rs). -/
inductive PathType
  | portToPort
  | aircraftToPort
  deriving DecidableEq

/-- Node types of a path segment endpoint. -/
inductive NodeType
  | vertiport
  | waypoint
  | aircraft
  deriving DecidableEq

/-- The `BestPathRequest` wire record. -/
structure BestPathRequest where
  node_uuid_start : String
  node_uuid_end : String
  time_start : Option Timestamp
  time_end : Option Timestamp
  deriving DecidableEq

/-- The sanitized request (`PathRequest` in routing.rs); the UUIDs are kept
as their validated strings. -/
structure PathRequest where
  node_uuid_start : String
  node_uuid_end : String
  time_start : Timestamp
  time_end : Timestamp
  deriving DecidableEq

/-- Hexadecimal digit. -/
def isHexDigit (c : Char) : Bool :=
  c.isDigit || (decide ('a' ≤ c) && decide (c ≤ 'f')) || (decide ('A' ≤ c) && decide (c ≤ 'F'))

/-- Consumes exactly `n` hexadecimal digits. -/
def hexRun : Nat → List Char → Option (List Char)
  | 0, cs => some cs
  | _ + 1, [] => none
  | n + 1, c :: cs => if isHexDigit c then hexRun n cs else none

/-- Consumes one hyphen. -/
def expectHyphen : Option (List Char) → Option (List Char)
  | some (c :: cs) => if c = '-' then some cs else none
  | _ => none

/-- Consumes `n` hexadecimal digits. -/
def expectHex (n : Nat) : Option (List Char) → Option (List Char)
  | some cs => hexRun n cs
  | none => none

/-- Models the external `uuid::Uuid::parse_str` restricted to the canonical
hyphenated 8-4-4-4-12 form. -/
def isCanonicalUuid (s : String) : Bool :=
  match expectHex 12 (expectHyphen (expectHex 4 (expectHyphen (expectHex 4 (expectHyphen
      (expectHex 4 (expectHyphen (expectHex 8 (some s.toList))))))))) with
  | some [] => true
  | _ => false

/-- `sanitize` (routing.rs): parse both UUIDs (`InvalidStartNode`,
`InvalidEndNode`), default a missing `time_start` to `now` and a missing
`time_end` to `now + 24h`, reject `time_end < time_start` with
`InvalidTimeWindow`, then reject `time_end < now` with `InvalidEndTime`.
`now` is the clock value during the call, passed as a parameter; the model
treats the clock as constant across the call. -/
def sanitize (now : Timestamp) (request : BestPathRequest) : Except PathError PathRequest :=
  if !(isCanonicalUuid request.node_uuid_start) then .error .invalidStartNode
  else if !(isCanonicalUuid request.node_uuid_end) then .error .invalidEndNode
  else
    let time_start := request.time_start.getD now
    let time_end := request.time_end.getD (now + ONE_DAY)
    if time_end < time_start then .error .invalidTimeWindow
    else if time_end < now then .error .invalidEndTime
    else
      .ok { node_uuid_start := request.node_uuid_start
            node_uuid_end := request.node_uuid_end
            time_start := time_start
            time_end := time_end }

/-- One row returned by the stored procedures `best_path_p2p` / `best_path_a2p`
(external collaborators; their output is a parameter of `best_path`). -/
structure ProcRow where
  index : Int
  start_type : NodeType
  start_latitude : ℚ
  start_longitude : ℚ
  end_type : NodeType
  end_latitude : ℚ
  end_longitude : ℚ
  distance_meters : ℚ
  deriving DecidableEq

/-- The `PathSegment` wire record. -/
structure PathSegment where
  index : Int
  start_type : NodeType
  start_latitude : ℚ
  start_longitude : ℚ
  end_type : NodeType
  end_latitude : ℚ
  end_longitude : ℚ
  distance_meters : ℚ
  altitude_meters : ℚ
  deriving DecidableEq

/-- Which steps of the routing query succeed. -/
structure RoutingOracle where
  poolGet : Bool
  query : Bool

/-- The positional column mapping of `best_path`: every returned segment's
`altitude_meters` is `ALTITUDE_HARDCODE`. -/
def procRowToSegment (r : ProcRow) : PathSegment :=
  { index := r.index
    start_type := r.start_type
    start_latitude := r.start_latitude
    start_longitude := r.start_longitude
    end_type := r.end_type
    end_latitude := r.end_latitude
    end_longitude := r.end_longitude
    distance_meters := r.distance_meters
    altitude_meters := ALTITUDE_HARDCODE }

/-- `best_path` (routing.rs): sanitize, then dispatch the stored procedure
selected by `path_type` and map its rows positionally. `procRows` stands for
the stored procedures (external collaborators); pool failure → `Client`,
query failure → `Unknown`. -/
def best_path (now : Timestamp) (o : RoutingOracle)
    (procRows : PathType → PathRequest → List ProcRow) (path_type : PathType)
    (request : BestPathRequest) : Except PathError (List PathSegment) :=
  match sanitize now request with
  | .error e => .error e
  | .ok req =>
    if !o.poolGet then .error .client
    else if !o.query then .error .unknown
    else .ok ((procRows path_type req).map procRowToSegment)

/-! Concrete scenarios used to exercise the theorems below. -/

/-- A constant distance metric: every edge is exactly one `lmax` long. -/
def dist40 : PointZ → PointZ → ℚ := fun _ _ => 40

/-- A session in which every DB step succeeds. -/
def oracleAll : DbOracle :=
  { poolGet := true, transactionCreate := true, prepare := true,
    execute := fun _ => true, commit := true }

/-- A session in which acquiring a pooled client fails. -/
def oracleNoPool : DbOracle :=
  { poolGet := false, transactionCreate := true, prepare := true,
    execute := fun _ => true, commit := true }

/-- A flight-writer session in which every DB step succeeds. -/
def flightOracleAll : FlightOracle :=
  { poolHandle := true, poolGet := true, transactionCreate := true,
    execute := fun _ => true, commit := true }

/-- A flight-writer session in which only creating the transaction fails. -/
def flightOracleTxnFail : FlightOracle :=
  { poolHandle := true, poolGet := true, transactionCreate := false,
    execute := fun _ => true, commit := true }

/-- A routing session in which every DB step succeeds. -/
def routingOracleAll : RoutingOracle :=
  { poolGet := true, query := true }

/-- An empty database. -/
def dbEmpty : GisDb :=
  { aircraft := [], flights := [], flight_segments := [] }

/-- A wire point at the origin. -/
def gA : GrpcPointZ := { latitude := 0, longitude := 0, altitude_meters := 0 }

/-- A second wire point. -/
def gB : GrpcPointZ := { latitude := 1/100, longitude := 0, altitude_meters := 50 }

/-- `gA` converted. -/
def pA : PointZ := { x := 0, y := 0, z := 0 }

/-- `gB` converted. -/
def pB : PointZ := { x := 0, y := 1/100, z := 50 }

/-- A valid flight-path request for flight `F1` over `[0, 100]`. -/
def reqC1 : UpdateFlightPathRequest :=
  { flight_identifier := some "F1", aircraft_identifier := some "A1", aircraft_type := 0,
    simulated := false, timestamp_start := some 0, timestamp_end := some 100,
    path := [gA, gB] }

/-- A flight-path request whose end timestamp precedes its start. -/
def reqC3 : UpdateFlightPathRequest :=
  { flight_identifier := some "F1", aircraft_identifier := some "A1", aircraft_type := 0,
    simulated := false, timestamp_start := some 100, timestamp_end := some 0,
    path := [gA, gB] }

/-- The segments the segmentizer computes for `reqC1` under `dist40`. -/
def segC1 : List FlightSegment :=
  [{ geomA := pA, geomB := pB, time_start := 0, time_end := 100 }]

/-- A stale row for flight `F1`, to be replaced. -/
def oldFlightRow : FlightRow :=
  { flight_identifier := "F1", aircraft_identifier := some "OLD", aircraft_type := .aeroplane,
    simulated := true, geom := some [pA], isa := stEnvelope [pA],
    time_start := some 5, time_end := some 6 }

/-- A stale segment of flight `F1`, to be deleted. -/
def oldSegF1 : FlightSegmentRow :=
  { flight_identifier := "F1", geom := some (pA, pA), time_start := some 5, time_end := some 6 }

/-- A segment of an unrelated flight `F2`, to be kept. -/
def segOther : FlightSegmentRow :=
  { flight_identifier := "F2", geom := none, time_start := none, time_end := some 7 }

/-- A database holding the stale flight `F1` and both segments. -/
def dbC1 : GisDb :=
  { aircraft := [], flights := [oldFlightRow], flight_segments := [oldSegF1, segOther] }

/-- A populated aircraft row for identifier `M`, all three streams observed. -/
def rowM : AircraftRow :=
  { identifier := "M", aircraft_type := .aeroplane,
    velocity_horizontal_ground_mps := some 10, velocity_vertical_mps := some (1/2),
    track_angle_degrees := some 90, geom := some { x := 1, y := 2, z := 3 },
    last_identifier_update := some 1, last_position_update := some 2,
    last_velocity_update := some 3, session_id := none, simulated := false }

/-- A position report for aircraft `M`. -/
def reqPosM : ReqAircraftPos :=
  { identifier := "M", geom := some { latitude := 4, longitude := 5, altitude_meters := 6 },
    timestamp_network := some 50, timestamp_aircraft := none }

/-- The validated form of `reqPosM`. -/
def posM : AircraftPosition :=
  { identifier := "M", geom := { x := 5, y := 4, z := 6 }, timestamp := 50 }

/-- The aircraft table after `reqPosM` lands on `[rowM]`. -/
def tblM2 : List AircraftRow :=
  [{ rowM with geom := some posM.geom, last_position_update := some posM.timestamp }]

/-- A position report whose identifier contains a semicolon. -/
def reqPosBad : ReqAircraftPos :=
  { identifier := "bad;id", geom := some gA,
    timestamp_network := some 1, timestamp_aircraft := none }

/-- A valid identity report, used to reach the DB steps of the id writer. -/
def reqIdM : ReqAircraftId :=
  { identifier := "M", aircraft_type := 1, timestamp_network := some 7 }

/-- A valid velocity report. -/
def reqVelM : ReqAircraftVelocity :=
  { identifier := "M", velocity_horizontal_ground_mps := 12, velocity_vertical_mps := 0,
    track_angle_degrees := 45, timestamp_network := some 8 }

/-- A canonical UUID string. -/
def uuid0 : String := "00000000-0000-0000-0000-000000000000"

/-- Another canonical UUID string. -/
def uuid1 : String := "11111111-1111-1111-1111-111111111111"

/-- A best-path request with a valid window `[10, 20]`. -/
def reqBestOk : BestPathRequest :=
  { node_uuid_start := uuid0, node_uuid_end := uuid1,
    time_start := some 10, time_end := some 20 }

/-- A best-path request with an inverted window. -/
def reqBestInverted : BestPathRequest :=
  { node_uuid_start := uuid0, node_uuid_end := uuid1,
    time_start := some 20, time_end := some 10 }

/-- One stored-procedure result row. -/
def procRow0 : ProcRow :=
  { index := 0, start_type := .vertiport, start_latitude := 1, start_longitude := 2,
    end_type := .vertiport, end_latitude := 3, end_longitude := 4, distance_meters := 5 }

/-- Stored procedures that always return the single row `procRow0`. -/
def procRowsOne : PathType → PathRequest → List ProcRow := fun _ _ => [procRow0]

/-- A flight that intersects any window over `[0, 10]`, flown by aircraft `M`. -/
def flightC6 : FlightRow :=
  { flight_identifier := "F6", aircraft_identifier := some "M", aircraft_type := .aeroplane,
    simulated := false, geom := some [pA, pB], isa := stEnvelope [pA, pB],
    time_start := some 0, time_end := some 10 }

/-- A database holding `flightC6` but no aircraft row at all. -/
def dbFlightNoAircraft : GisDb :=
  { aircraft := [], flights := [flightC6], flight_segments := [] }

/-- A database holding `flightC6` together with its aircraft row `M`. -/
def dbFlightWithAircraft : GisDb :=
  { aircraft := [rowM], flights := [flightC6], flight_segments := [] }

/-- A window around the origin with interval `[0, 10]`. -/
def reqWindow : GetFlightsRequest :=
  { window_min_x := -1, window_min_y := -1, window_max_x := 1, window_max_y := 1,
    time_start := some 0, time_end := some 10 }

/-- An `ST_Intersects` stand-in that always holds. -/
def lineTrue : Envelope → List PointZ → Bool := fun _ _ => true

/-- An `ST_3DDWithin` stand-in that always holds. -/
def withinTrue : PointZ × PointZ → Bool := fun _ => true

/-- A segment of flight `F3` with NULL `time_start` and `time_end = 5`. -/
def segNullStart : FlightSegmentRow :=
  { flight_identifier := "F3", geom := some (pA, pB), time_start := none, time_end := some 5 }

/-- A non-simulated flight `F3`. -/
def flightF3 : FlightRow :=
  { flight_identifier := "F3", aircraft_identifier := some "M", aircraft_type := .aeroplane,
    simulated := false, geom := some [pA, pB], isa := stEnvelope [pA, pB],
    time_start := none, time_end := none }

/-- A database holding `F3` and its NULL-`time_start` segment. -/
def dbF3 : GisDb :=
  { aircraft := [], flights := [flightF3], flight_segments := [segNullStart] }

/-! Theorems. -/

/-- C7: each of `update_aircraft_id`, `update_aircraft_position` and
`update_aircraft_velocity` rejects an empty batch with `NoAircraft` for
every session oracle — in particular also in sessions where pool
acquisition would fail, so the result never depends on the pool: the pool
is not touched. -/
theorem empty_batch_rejected_before_pool (o : DbOracle) (tbl : List AircraftRow) :
    update_aircraft_id o tbl [] = .error (.aircraft .noAircraft) ∧
    update_aircraft_position o tbl [] = .error (.aircraft .noAircraft) ∧
    update_aircraft_velocity o tbl [] = .error (.aircraft .noAircraft) :=
  ⟨rfl, rfl, rfl⟩

/-- C10: every `PathSegment` in the list returned by a successful
`best_path` call has `altitude_meters` equal to the hardcoded constant
1000, for every request, session oracle and stored-procedure output. -/
theorem best_path_altitude_hardcoded (now : Timestamp) (o : RoutingOracle)
    (procRows : PathType → PathRequest → List ProcRow) (path_type : PathType)
    (request : BestPathRequest) (segs : List PathSegment)
    (h : best_path now o procRows path_type request = .ok segs) :
    ∀ s ∈ segs, s.altitude_meters = 1000 := by
  unfold best_path at h
  split at h
  · exact absurd h (by simp)
  · split at h
    · exact absurd h (by simp)
    · split at h
      · exact absurd h (by simp)
      · simp only [Except.ok.injEq] at h
        subst h
        intro s hs
        obtain ⟨r, _, rfl⟩ := List.mem_map.mp hs
        rfl

/-- C10 witness: a successful call on concrete inputs, whose single
returned segment carries altitude 1000. -/
theorem best_path_altitude_hardcoded_witness :
    (procRowToSegment procRow0).altitude_meters = 1000 :=
  best_path_altitude_hardcoded 5 routingOracleAll procRowsOne .portToPort reqBestOk
    [procRowToSegment procRow0] (by decide) (procRowToSegment procRow0) (by simp)

/-- C8: `check_identifier` succeeds iff the string matches
`^[-0-9A-Za-z_.]{1,255}$` (spelled out as: length between 1 and 255 and
every character in the class); in particular the empty string, strings
longer than 255 characters, and strings containing a quote, a semicolon or
a space are rejected, and each telemetry adapter maps a rejected identifier
to the error `Label`. -/
theorem check_identifier_regex (s : String) :
    (check_identifier s = true ↔
      (1 ≤ s.length ∧ s.length ≤ 255 ∧ ∀ c ∈ s.toList,
        (c = '-' ∨ ('0' ≤ c ∧ c ≤ '9') ∨ ('A' ≤ c ∧ c ≤ 'Z') ∨ ('a' ≤ c ∧ c ≤ 'z') ∨
          c = '_' ∨ c = '.'))) ∧
    (s.toList.any (fun c => c == Char.ofNat 39 || c == ';' || c == ' ') = true →
      check_identifier s = false) ∧
    ((s.length = 0 ∨ 255 < s.length) → check_identifier s = false) ∧
    (∀ req : ReqAircraftPos, req.identifier = s → check_identifier s = false →
      AircraftPosition.tryFrom req = .error (.aircraft .label)) ∧
    (∀ req : ReqAircraftId, req.identifier = s → check_identifier s = false →
      AircraftId.tryFrom req = .error (.aircraft .label)) ∧
    (∀ req : ReqAircraftVelocity, req.identifier = s → check_identifier s = false →
      AircraftVelocity.tryFrom req = .error (.aircraft .label)) := by
  have hiff : check_identifier s = true ↔
      (1 ≤ s.length ∧ s.length ≤ 255 ∧ ∀ c ∈ s.toList,
        (c = '-' ∨ ('0' ≤ c ∧ c ≤ '9') ∨ ('A' ≤ c ∧ c ≤ 'Z') ∨ ('a' ≤ c ∧ c ≤ 'z') ∨
          c = '_' ∨ c = '.')) := by
    simp only [check_identifier, check_string, identifierCharOk, Bool.and_eq_true,
      decide_eq_true_eq, List.all_eq_true, Bool.or_eq_true, beq_iff_eq, and_assoc, or_assoc]
  refine ⟨hiff, ?_, ?_, ?_, ?_, ?_⟩
  · intro hbad
    obtain ⟨c, hc, hcp⟩ := List.any_eq_true.mp hbad
    cases hck : check_identifier s with
    | false => rfl
    | true =>
      obtain ⟨-, -, hall⟩ := hiff.mp hck
      have := hall c hc
      simp only [Bool.or_eq_true, beq_iff_eq, or_assoc] at hcp
      rcases hcp with rfl | rfl | rfl <;> revert this <;> decide
  · intro hlen
    cases hck : check_identifier s with
    | false => rfl
    | true =>
      obtain ⟨h1, h2, -⟩ := hiff.mp hck
      rcases hlen with h | h <;> omega
  · intro req hid hfalse
    unfold AircraftPosition.tryFrom
    rw [hid, hfalse]
    rfl
  · intro req hid hfalse
    unfold AircraftId.tryFrom
    rw [hid, hfalse]
    rfl
  · intro req hid hfalse
    unfold AircraftVelocity.tryFrom
    rw [hid, hfalse]
    rfl

/-- C8 witness: a conforming identifier accepted, a semicolon rejected, the
empty string rejected, and a rejected adapter call mapped to `Label`. -/
theorem check_identifier_regex_witness :
    check_identifier "Falcon-1" = true ∧
    check_identifier "bad;id" = false ∧
    check_identifier "" = false ∧
    AircraftPosition.tryFrom reqPosBad = .error (.aircraft .label) :=
  ⟨(check_identifier_regex "Falcon-1").1.mpr (by decide),
   (check_identifier_regex "bad;id").2.1 (by decide),
   (check_identifier_regex "").2.2.1 (Or.inl rfl),
   (check_identifier_regex "bad;id").2.2.2.1 reqPosBad rfl
     ((check_identifier_regex "bad;id").2.1 (by decide))⟩

/-- C5: for a request with two parseable UUIDs, `sanitize` defaults a
missing `time_start` to `now` and a missing `time_end` to `now + 24h`,
rejects `time_end < time_start` (after defaulting) with
`InvalidTimeWindow`, then rejects `time_end < now` with `InvalidEndTime`,
and accepts otherwise; `best_path` propagates every `sanitize` error and
dispatches the stored procedure exactly on the accepted requests. -/
theorem sanitize_window_checks (now : Timestamp) (request : BestPathRequest)
    (hs : isCanonicalUuid request.node_uuid_start = true)
    (he : isCanonicalUuid request.node_uuid_end = true) :
    (request.time_end.getD (now + ONE_DAY) < request.time_start.getD now →
      sanitize now request = .error .invalidTimeWindow) ∧
    (request.time_start.getD now ≤ request.time_end.getD (now + ONE_DAY) →
      request.time_end.getD (now + ONE_DAY) < now →
      sanitize now request = .error .invalidEndTime) ∧
    (request.time_start.getD now ≤ request.time_end.getD (now + ONE_DAY) →
      now ≤ request.time_end.getD (now + ONE_DAY) →
      sanitize now request = .ok
        { node_uuid_start := request.node_uuid_start
          node_uuid_end := request.node_uuid_end
          time_start := request.time_start.getD now
          time_end := request.time_end.getD (now + ONE_DAY) }) ∧
    (∀ (e : PathError) (o : RoutingOracle) procRows path_type,
      sanitize now request = .error e →
      best_path now o procRows path_type request = .error e) ∧
    (∀ (req2 : PathRequest) (o : RoutingOracle) procRows path_type,
      sanitize now request = .ok req2 → o.poolGet = true → o.query = true →
      best_path now o procRows path_type request =
        .ok ((procRows path_type req2).map procRowToSegment)) := by
  refine ⟨?_, ?_, ?_, ?_, ?_⟩
  · intro hlt
    unfold sanitize
    rw [hs, he]
    simp only [Bool.not_true, Bool.false_eq_true, if_false]
    rw [if_pos hlt]
  · intro h1 h2
    unfold sanitize
    rw [hs, he]
    simp only [Bool.not_true, Bool.false_eq_true, if_false]
    rw [if_neg (not_lt.mpr h1), if_pos h2]
  · intro h1 h2
    unfold sanitize
    rw [hs, he]
    simp only [Bool.not_true, Bool.false_eq_true, if_false]
    rw [if_neg (not_lt.mpr h1), if_neg (not_lt.mpr h2)]
  · intro e o procRows path_type hserr
    unfold best_path
    rw [hserr]
  · intro req2 o procRows path_type hsok hpg hq
    unfold best_path
    rw [hsok]
    simp [hpg, hq]

/-- C5 witness: with `now = 5`, the request with window `[10, 20]` is
accepted and dispatched; the request with window `[20, 10]` is rejected
with `InvalidTimeWindow`. -/
theorem sanitize_window_checks_witness :
    sanitize 5 reqBestOk =
      .ok { node_uuid_start := uuid0, node_uuid_end := uuid1,
            time_start := 10, time_end := 20 } ∧
    sanitize 5 reqBestInverted = .error .invalidTimeWindow ∧
    best_path 5 routingOracleAll procRowsOne .portToPort reqBestOk =
      .ok [procRowToSegment procRow0] :=
  ⟨(sanitize_window_checks 5 reqBestOk (by decide) (by decide)).2.2.1 (by decide) (by decide),
   (sanitize_window_checks 5 reqBestInverted (by decide) (by decide)).1 (by decide),
   (sanitize_window_checks 5 reqBestOk (by decide) (by decide)).2.2.2.2
     { node_uuid_start := uuid0, node_uuid_end := uuid1, time_start := 10, time_end := 20 }
     routingOracleAll procRowsOne .portToPort (by decide) rfl rfl⟩

/-- C9 amended: every row the intersection statement can return satisfies
`simulated = FALSE`; a segment's time filter passes iff each non-NULL bound
satisfies its comparison, so a NULL bound imposes no constraint on its side
(and a segment with both bounds NULL matches every window), while a segment
with one NULL bound must still pass the other bound's check. -/
theorem flight_intersection_filters (within : PointZ × PointZ → Bool) (db : GisDb)
    (t3 t4 : Timestamp) :
    (∀ f ∈ flight_intersection within db t3 t4, f.simulated = false) ∧
    (∀ s : FlightSegmentRow, segmentTimeOverlap s t3 t4 = true ↔
      ((∀ ts, s.time_start = some ts → ts ≤ t4) ∧
        (∀ te, s.time_end = some te → t3 ≤ te))) := by
  constructor
  · intro f hf
    have hf2 : f ∈ db.flights.filter fun f =>
        (db.flight_segments.filter fun s =>
          segmentTimeOverlap s t3 t4 && segmentWithin within s).any
            (fun s => s.flight_identifier == f.flight_identifier) &&
          f.simulated == false := List.take_subset _ _ hf
    have := (List.mem_filter.mp hf2).2
    simp only [Bool.and_eq_true, beq_iff_eq] at this
    exact this.2
  · intro s
    obtain ⟨fid, g, tso, teo⟩ := s
    cases tso <;> cases teo <;>
      simp [segmentTimeOverlap]

/-- C9 counterexample: the segment `segNullStart` has a NULL `time_start`
and passes the spatial filter, yet for the window `[10, 20]` its flight is
not returned (its `time_end = 5` fails the end-bound check), while for
`[0, 20]` it is: a NULL `time_start` is not "overlapping every queried time
window". -/
theorem flight_intersection_null_not_always_cex :
    segNullStart.time_start = none ∧
    segmentWithin withinTrue segNullStart = true ∧
    flight_intersection withinTrue dbF3 10 20 = [] ∧
    flight_intersection withinTrue dbF3 0 20 = [flightF3] := by
  decide

/-- C9 witness: a returned row on concrete inputs is not simulated, and the
time-filter characterization evaluated at `segNullStart`. -/
theorem flight_intersection_filters_witness :
    flightF3 ∈ flight_intersection withinTrue dbF3 0 20 ∧
    flightF3.simulated = false ∧
    segmentTimeOverlap segNullStart 0 20 = true :=
  ⟨by decide,
   (flight_intersection_filters withinTrue dbF3 0 20).1 flightF3 (by decide),
   (flight_intersection_filters withinTrue dbF3 0 20).2 segNullStart |>.mpr
     ⟨fun ts h => by simp [segNullStart] at h, fun te h => by
       simp only [segNullStart] at h
       injection h with h
       rw [← h]
       decide⟩⟩

/-- C3 amended: a flight-path request whose end timestamp precedes its
start (both present) reaches the segmentizer only after the pool handle,
the pooled session and the transaction have been acquired, and the
segmentizer's inverted-window error is mapped to `Segments` — not `Time`
(`Time` is returned only for a missing timestamp). -/
theorem time_inversion_yields_segments_error (dist : PointZ → PointZ → ℚ)
    (o : FlightOracle) (db : GisDb) (req : UpdateFlightPathRequest) (fid : String)
    (ts te : Timestamp) (atype : AircraftType) (points : List PointZ)
    (hfid : req.flight_identifier = some fid)
    (hchk : check_flight_identifier fid = true)
    (hts : req.timestamp_start = some ts)
    (hte : req.timestamp_end = some te)
    (hlt : te < ts)
    (hat : AircraftType.fromI32 req.aircraft_type = some atype)
    (hpts : req.path.mapM PointZ.tryFromGrpc = some points)
    (hph : o.poolHandle = true) (hpg : o.poolGet = true) (htc : o.transactionCreate = true) :
    update_flight_path dist o db req = .error (.flightPath .segments) := by
  unfold update_flight_path validate_flight_path
  rw [hfid, hts, hte, hat, hpts]
  simp only [hchk, hph, hpg, htc, Bool.not_true, Bool.false_eq_true, if_false]
  unfold segmentize
  rw [if_pos hlt]

/-- C3 counterexample: a concrete request with start 100 and end 0, valid
in every other respect and run against an all-succeeding session, returns
`Segments`, not `Time`. -/
theorem update_flight_path_inverted_time_cex :
    update_flight_path dist40 flightOracleAll dbEmpty reqC3 = .error (.flightPath .segments) ∧
    FlightError.segments ≠ FlightError.time := by
  decide

/-- C3 witness for the amended statement, at the same concrete request. -/
theorem time_inversion_yields_segments_error_witness :
    update_flight_path dist40 flightOracleAll dbEmpty reqC3 = .error (.flightPath .segments) :=
  time_inversion_yields_segments_error dist40 flightOracleAll dbEmpty reqC3 "F1" 100 0
    .undeclared [pA, pB] (by decide) (by decide) (by decide) (by decide) (by decide)
    (by decide) (by decide) rfl rfl rfl

/-- The position UPSERT preserves the identifier of every row it touches, so
`find?` by identifier commutes with it. -/
theorem upsertPosition_find (tbl : List AircraftRow) (p : AircraftPosition) :
    ∃ row, (upsertPosition tbl p).find? (fun r => r.identifier == p.identifier) = some row ∧
      row.geom = some p.geom ∧ row.last_position_update = some p.timestamp := by
  unfold upsertPosition
  by_cases h : tbl.any (fun row => row.identifier == p.identifier) = true
  · rw [if_pos h]
    rw [List.find?_map]
    have hcomp : ((fun r : AircraftRow => r.identifier == p.identifier) ∘
        fun row => if row.identifier == p.identifier then
          { row with geom := some p.geom, last_position_update := some p.timestamp }
        else row) = fun r : AircraftRow => r.identifier == p.identifier := by
      funext r
      by_cases hr : r.identifier = p.identifier <;> simp [Function.comp, hr]
    rw [hcomp]
    obtain ⟨row0, hmem, hpred⟩ := List.any_eq_true.mp h
    have hsome : (tbl.find? fun r => r.identifier == p.identifier).isSome :=
      List.find?_isSome.mpr ⟨row0, hmem, hpred⟩
    obtain ⟨row1, hfind⟩ := Option.isSome_iff_exists.mp hsome
    have hpred1 := List.find?_some hfind
    simp only [beq_iff_eq] at hpred1
    refine ⟨_, by rw [hfind]; rfl, ?_, ?_⟩ <;> simp [hpred1]
  · rw [if_neg h]
    rw [List.find?_append]
    have hfalse : tbl.any (fun r => r.identifier == p.identifier) = false := by
      cases hx : tbl.any fun r => r.identifier == p.identifier
      · rfl
      · exact absurd hx h
    have hnone : tbl.find? (fun r => r.identifier == p.identifier) = none :=
      List.find?_eq_none.mpr (List.any_eq_false.mp hfalse)
    rw [hnone]
    refine ⟨{ AircraftRow.fresh p.identifier with geom := some p.geom, last_position_update := some p.timestamp }, ?_, rfl, rfl⟩
    simp [List.find?, AircraftRow.fresh, Option.or]

/-- Rows of other identifiers survive the position UPSERT unchanged. -/
theorem mem_upsertPosition_of_ne (tbl : List AircraftRow) (p : AircraftPosition)
    (row : AircraftRow) (hrow : row ∈ tbl) (hne : row.identifier ≠ p.identifier) :
    row ∈ upsertPosition tbl p := by
  unfold upsertPosition
  by_cases h : tbl.any (fun r => r.identifier == p.identifier) = true
  · rw [if_pos h]
    have hfix : (if (row.identifier == p.identifier) = true then
        { row with geom := some p.geom, last_position_update := some p.timestamp }
      else row) = row := by simp [hne]
    exact hfix ▸ List.mem_map_of_mem _ hrow
  · rw [if_neg h]
    exact List.mem_append_left _ hrow

/-- The row of the updated identifier keeps every column other than `geom`
and `last_position_update`. -/
theorem mem_upsertPosition_of_eq (tbl : List AircraftRow) (p : AircraftPosition)
    (row : AircraftRow) (hrow : row ∈ tbl) (heq : row.identifier = p.identifier) :
    ({ row with geom := some p.geom, last_position_update := some p.timestamp } :
      AircraftRow) ∈ upsertPosition tbl p := by
  unfold upsertPosition
  have hany : tbl.any (fun r => r.identifier == p.identifier) = true :=
    List.any_eq_true.mpr ⟨row, hrow, by simp [heq]⟩
  rw [if_pos hany]
  have hfix : (if (row.identifier == p.identifier) = true then
      { row with geom := some p.geom, last_position_update := some p.timestamp }
    else row) =
      { row with geom := some p.geom, last_position_update := some p.timestamp } := by
    simp [heq]
  exact hfix ▸ List.mem_map_of_mem _ hrow

/-- When no row carries the identifier, the position UPSERT appends a fresh
row whose remaining columns are the DDL defaults. -/
theorem upsertPosition_of_all_ne (tbl : List AircraftRow) (p : AircraftPosition)
    (h : tbl.all (fun r => !(r.identifier == p.identifier)) = true) :
    upsertPosition tbl p = tbl ++ [{ AircraftRow.fresh p.identifier with
      geom := some p.geom, last_position_update := some p.timestamp }] := by
  unfold upsertPosition
  have hany : tbl.any (fun r => r.identifier == p.identifier) = false := by
    rw [List.any_eq_false]
    intro x hx
    simpa using List.all_eq_true.mp h x hx
  rw [if_neg (by simp [hany])]

/-- A committed single-record position update is exactly the position UPSERT
applied to the prior table. -/
theorem update_aircraft_position_single_ok (o : DbOracle) (tbl tbl2 : List AircraftRow)
    (req : ReqAircraftPos) (p : AircraftPosition)
    (hconv : AircraftPosition.tryFrom req = .ok p)
    (hrun : update_aircraft_position o tbl [req] = .ok tbl2) :
    tbl2 = upsertPosition tbl p := by
  unfold update_aircraft_position at hrun
  have hmap : [req].mapM AircraftPosition.tryFrom = .ok [p] := by
    simp [List.mapM, List.mapM.loop, hconv]
  rw [hmap] at hrun
  by_cases hpg : o.poolGet = true
  · by_cases htc : o.transactionCreate = true
    · by_cases hpr : o.prepare = true
      · by_cases he0 : o.execute 0 = true
        · by_cases hc : o.commit = true
          · simp only [List.isEmpty_cons, Bool.false_eq_true, if_false, hpg, htc, hpr,
              Bool.not_true, runBatch, he0, if_true, hc] at hrun
            exact (Except.ok.injEq _ _).mp hrun |>.symm
          · simp [hpg, htc, hpr, runBatch, he0, hc] at hrun
        · simp [hpg, htc, hpr, runBatch, he0] at hrun
      · simp [hpg, htc, hpr] at hrun
    · simp [hpg, htc] at hrun
  · simp [hpg] at hrun

/-- C2: after `update_aircraft_position` commits the validated record `p`,
`get_aircraft_pointz (p.identifier)` returns `p.geom`, and the UPSERT
touches only `geom` and `last_position_update`: rows of other identifiers
survive unchanged; the row of `p.identifier` keeps `aircraft_type`,
`last_identifier_update`, the three velocity columns and
`last_velocity_update`; and a previously absent identifier gains a fresh
row whose other columns are the DDL defaults. -/
theorem position_update_frame (o o2 : DbOracle) (tbl tbl2 : List AircraftRow)
    (req : ReqAircraftPos) (p : AircraftPosition)
    (hconv : AircraftPosition.tryFrom req = .ok p)
    (hrun : update_aircraft_position o tbl [req] = .ok tbl2)
    (hget : o2.poolGet = true) :
    get_aircraft_pointz o2 tbl2 p.identifier = .ok p.geom ∧
    (∀ row ∈ tbl, row.identifier ≠ p.identifier → row ∈ tbl2) ∧
    (∀ row ∈ tbl, row.identifier = p.identifier →
      ({ row with geom := some p.geom, last_position_update := some p.timestamp } :
        AircraftRow) ∈ tbl2) ∧
    (tbl.all (fun row => !(row.identifier == p.identifier)) = true →
      tbl2 = tbl ++ [{ AircraftRow.fresh p.identifier with
        geom := some p.geom, last_position_update := some p.timestamp }]) := by
  obtain rfl := update_aircraft_position_single_ok o tbl tbl2 req p hconv hrun
  refine ⟨?_, ?_, ?_, ?_⟩
  · unfold get_aircraft_pointz
    rw [if_neg (by simp [hget])]
    obtain ⟨row, hfind, hg, hl⟩ := upsertPosition_find tbl p
    rw [hfind]
    simp [hg]
  · exact fun row hrow hne => mem_upsertPosition_of_ne tbl p row hrow hne
  · exact fun row hrow heq => mem_upsertPosition_of_eq tbl p row hrow heq
  · exact fun h => upsertPosition_of_all_ne tbl p h

/-- C2 witness: the concrete report `reqPosM` against the one-row table
`[rowM]`: the read-back returns the new geometry, and the updated row keeps
all other columns of `rowM`. -/
theorem position_update_frame_witness :
    get_aircraft_pointz oracleAll tblM2 posM.identifier = .ok posM.geom ∧
    ({ rowM with geom := some posM.geom, last_position_update := some posM.timestamp } :
      AircraftRow) ∈ tblM2 :=
  ⟨(position_update_frame oracleAll oracleAll [rowM] tblM2 reqPosM posM (by decide)
      (by decide) rfl).1,
   (position_update_frame oracleAll oracleAll [rowM] tblM2 reqPosM posM (by decide)
      (by decide) rfl).2.2.1 rowM (List.mem_singleton.mpr rfl) rfl⟩

/-- Any failure inside the per-record execution loop is `DBError`. -/
theorem runBatch_error_dbError {α : Type} (o : DbOracle)
    (upsert : List AircraftRow → α → List AircraftRow) (recs : List α) :
    ∀ (i : Nat) (tbl : List AircraftRow) (e : PostgisError),
      runBatch o upsert i recs tbl = .error e → e = .aircraft .dbError := by
  induction recs with
  | nil =>
    intro i tbl e h
    simp [runBatch] at h
  | cons r rest ih =>
    intro i tbl e h
    unfold runBatch at h
    by_cases hx : o.execute i = true
    · rw [if_pos hx] at h
      exact ih _ _ _ h
    · rw [if_neg hx] at h
      exact ((Except.error.injEq _ _).mp h).symm

/-- Any failure inside the segment INSERT loop is `DBError`. -/
theorem insertSegments_error_dbError (o : FlightOracle) (rows : List FlightSegmentRow) :
    ∀ (i : Nat) (db : GisDb) (e : PostgisError),
      insertSegments o i rows db = .error e → e = .flightPath .dbError := by
  induction rows with
  | nil =>
    intro i db e h
    simp [insertSegments] at h
  | cons r rest ih =>
    intro i db e h
    unfold insertSegments at h
    by_cases hx : o.execute i = true
    · rw [if_pos hx] at h
      exact ih _ _ _ h
    · rw [if_neg hx] at h
      exact ((Except.error.injEq _ _).mp h).symm

/-- A completed segment INSERT loop appends exactly its rows to the staged
segments table. -/
theorem insertSegments_ok_append (o : FlightOracle) (rows : List FlightSegmentRow) :
    ∀ (i : Nat) (db db2 : GisDb), insertSegments o i rows db = .ok db2 →
      db2 = { db with flight_segments := db.flight_segments ++ rows } := by
  induction rows with
  | nil =>
    intro i db db2 h
    simp only [insertSegments] at h
    obtain rfl := (Except.ok.injEq _ _).mp h
    simp
  | cons r rest ih =>
    intro i db db2 h
    unfold insertSegments at h
    by_cases hx : o.execute i = true
    · rw [if_pos hx] at h
      rw [ih _ _ _ h]
      simp
    · rw [if_neg hx] at h
      simp at h

/-- The DB-error mapping of `update_aircraft_id` on a valid non-empty batch. -/
theorem update_aircraft_id_errors (o : DbOracle) (tbl : List AircraftRow)
    (reqs : List ReqAircraftId) (recs : List AircraftId)
    (hne : reqs ≠ []) (hconv : reqs.mapM AircraftId.tryFrom = .ok recs) :
    (o.poolGet = false → update_aircraft_id o tbl reqs = .error (.aircraft .client)) ∧
    (o.poolGet = true → o.transactionCreate = false →
      update_aircraft_id o tbl reqs = .error (.aircraft .dbError)) ∧
    (o.poolGet = true → o.transactionCreate = true → o.prepare = false →
      update_aircraft_id o tbl reqs = .error (.aircraft .dbError)) ∧
    (∀ e, o.poolGet = true → o.transactionCreate = true → o.prepare = true →
      update_aircraft_id o tbl reqs = .error e → e = .aircraft .dbError) := by
  have hemp : reqs.isEmpty = false := by
    cases reqs
    · exact absurd rfl hne
    · rfl
  refine ⟨?_, ?_, ?_, ?_⟩
  · intro h1
    unfold update_aircraft_id
    rw [hemp, hconv]
    simp [h1]
  · intro h1 h2
    unfold update_aircraft_id
    rw [hemp, hconv]
    simp [h1, h2]
  · intro h1 h2 h3
    unfold update_aircraft_id
    rw [hemp, hconv]
    simp [h1, h2, h3]
  · intro e h1 h2 h3 he
    unfold update_aircraft_id at he
    rw [hemp, hconv] at he
    simp only [h1, h2, h3, Bool.not_true, Bool.false_eq_true, if_false] at he
    cases hrb : runBatch o upsertId 0 recs tbl with
    | error e1 =>
      rw [hrb] at he
      simp only [Except.error.injEq] at he
      rw [← he]
      exact runBatch_error_dbError o upsertId recs 0 tbl e1 hrb
    | ok tbl2 =>
      rw [hrb] at he
      by_cases hc : o.commit = true
      · simp [hc] at he
      · simp only [hc, Bool.not_false, if_true, Except.error.injEq] at he
        exact he.symm

/-- The DB-error mapping of `update_aircraft_position` on a valid non-empty
batch. -/
theorem update_aircraft_position_errors (o : DbOracle) (tbl : List AircraftRow)
    (reqs : List ReqAircraftPos) (recs : List AircraftPosition)
    (hne : reqs ≠ []) (hconv : reqs.mapM AircraftPosition.tryFrom = .ok recs) :
    (o.poolGet = false → update_aircraft_position o tbl reqs = .error (.aircraft .client)) ∧
    (o.poolGet = true → o.transactionCreate = false →
      update_aircraft_position o tbl reqs = .error (.aircraft .dbError)) ∧
    (o.poolGet = true → o.transactionCreate = true → o.prepare = false →
      update_aircraft_position o tbl reqs = .error (.aircraft .dbError)) ∧
    (∀ e, o.poolGet = true → o.transactionCreate = true → o.prepare = true →
      update_aircraft_position o tbl reqs = .error e → e = .aircraft .dbError) := by
  have hemp : reqs.isEmpty = false := by
    cases reqs
    · exact absurd rfl hne
    · rfl
  refine ⟨?_, ?_, ?_, ?_⟩
  · intro h1
    unfold update_aircraft_position
    rw [hemp, hconv]
    simp [h1]
  · intro h1 h2
    unfold update_aircraft_position
    rw [hemp, hconv]
    simp [h1, h2]
  · intro h1 h2 h3
    unfold update_aircraft_position
    rw [hemp, hconv]
    simp [h1, h2, h3]
  · intro e h1 h2 h3 he
    unfold update_aircraft_position at he
    rw [hemp, hconv] at he
    simp only [h1, h2, h3, Bool.not_true, Bool.false_eq_true, if_false] at he
    cases hrb : runBatch o upsertPosition 0 recs tbl with
    | error e1 =>
      rw [hrb] at he
      simp only [Except.error.injEq] at he
      rw [← he]
      exact runBatch_error_dbError o upsertPosition recs 0 tbl e1 hrb
    | ok tbl2 =>
      rw [hrb] at he
      by_cases hc : o.commit = true
      · simp [hc] at he
      · simp only [hc, Bool.not_false, if_true, Except.error.injEq] at he
        exact he.symm

/-- The DB-error mapping of `update_aircraft_velocity` on a valid non-empty
batch. -/
theorem update_aircraft_velocity_errors (o : DbOracle) (tbl : List AircraftRow)
    (reqs : List ReqAircraftVelocity) (recs : List AircraftVelocity)
    (hne : reqs ≠ []) (hconv : reqs.mapM AircraftVelocity.tryFrom = .ok recs) :
    (o.poolGet = false → update_aircraft_velocity o tbl reqs = .error (.aircraft .client)) ∧
    (o.poolGet = true → o.transactionCreate = false →
      update_aircraft_velocity o tbl reqs = .error (.aircraft .dbError)) ∧
    (o.poolGet = true → o.transactionCreate = true → o.prepare = false →
      update_aircraft_velocity o tbl reqs = .error (.aircraft .dbError)) ∧
    (∀ e, o.poolGet = true → o.transactionCreate = true → o.prepare = true →
      update_aircraft_velocity o tbl reqs = .error e → e = .aircraft .dbError) := by
  have hemp : reqs.isEmpty = false := by
    cases reqs
    · exact absurd rfl hne
    · rfl
  refine ⟨?_, ?_, ?_, ?_⟩
  · intro h1
    unfold update_aircraft_velocity
    rw [hemp, hconv]
    simp [h1]
  · intro h1 h2
    unfold update_aircraft_velocity
    rw [hemp, hconv]
    simp [h1, h2]
  · intro h1 h2 h3
    unfold update_aircraft_velocity
    rw [hemp, hconv]
    simp [h1, h2, h3]
  · intro e h1 h2 h3 he
    unfold update_aircraft_velocity at he
    rw [hemp, hconv] at he
    simp only [h1, h2, h3, Bool.not_true, Bool.false_eq_true, if_false] at he
    cases hrb : runBatch o upsertVelocity 0 recs tbl with
    | error e1 =>
      rw [hrb] at he
      simp only [Except.error.injEq] at he
      rw [← he]
      exact runBatch_error_dbError o upsertVelocity recs 0 tbl e1 hrb
    | ok tbl2 =>
      rw [hrb] at he
      by_cases hc : o.commit = true
      · simp [hc] at he
      · simp only [hc, Bool.not_false, if_true, Except.error.injEq] at he
        exact he.symm

/-- The DB-error mapping of `update_flight_path` on a valid request:
session acquisition failure is `Client`, but so is transaction-creation
failure; once the transaction exists, every statement or commit failure is
`DBError`. -/
theorem update_flight_path_errors (dist : PointZ → PointZ → ℚ) (o : FlightOracle)
    (db : GisDb) (req : UpdateFlightPathRequest) (fid : String) (ts te : Timestamp)
    (atype : AircraftType) (points : List PointZ) (segs : List FlightSegment)
    (hfid : req.flight_identifier = some fid)
    (hchk : check_flight_identifier fid = true)
    (hts : req.timestamp_start = some ts)
    (hte : req.timestamp_end = some te)
    (hat : AircraftType.fromI32 req.aircraft_type = some atype)
    (hpts : req.path.mapM PointZ.tryFromGrpc = some points)
    (hseg : segmentize dist points ts te MAX_FLIGHT_SEGMENT_LENGTH_METERS = .ok segs)
    (hph : o.poolHandle = true) :
    (o.poolGet = false → update_flight_path dist o db req = .error (.flightPath .client)) ∧
    (o.poolGet = true → o.transactionCreate = false →
      update_flight_path dist o db req = .error (.flightPath .client)) ∧
    (∀ e, o.poolGet = true → o.transactionCreate = true →
      update_flight_path dist o db req = .error e → e = .flightPath .dbError) := by
  refine ⟨?_, ?_, ?_⟩
  · intro h1
    unfold update_flight_path validate_flight_path
    rw [hfid, hts, hte, hat]
    simp [hchk, hph, h1]
  · intro h1 h2
    unfold update_flight_path validate_flight_path
    rw [hfid, hts, hte, hat]
    simp [hchk, hph, h1, h2]
  · intro e h1 h2 he
    unfold update_flight_path validate_flight_path at he
    rw [hfid, hts, hte, hat] at he
    simp only [hchk, hph, h1, h2, hpts, hseg, Bool.not_true, Bool.false_eq_true,
      if_false] at he
    by_cases he0 : o.execute 0 = true
    · by_cases he1 : o.execute 1 = true
      · simp only [he0, he1, Bool.not_true, Bool.false_eq_true, if_false] at he
        cases hins : insertSegments o 2 (segs.map (segRow fid))
            { db with
              flights := upsertFlight db.flights
                { flight_identifier := fid, aircraft_identifier := req.aircraft_identifier,
                  aircraft_type := atype, simulated := req.simulated, geom := some points,
                  isa := stEnvelope points, time_start := some ts, time_end := some te },
              flight_segments := db.flight_segments.filter
                (fun s => !(s.flight_identifier == fid)) } with
        | error e1 =>
          rw [hins] at he
          simp only [Except.error.injEq] at he
          rw [← he]
          exact insertSegments_error_dbError o (segs.map (segRow fid)) 2 _ e1 hins
        | ok db3 =>
          rw [hins] at he
          by_cases hc : o.commit = true
          · simp [hc] at he
          · simp only [hc, Bool.not_false, if_true, Except.error.injEq] at he
            exact he.symm
      · simp only [he0, he1, Bool.not_true, Bool.not_false, Bool.false_eq_true, if_false,
          if_true, Except.error.injEq] at he
        exact he.symm
    · simp only [he0, Bool.not_false, if_true, Except.error.injEq] at he
      exact he.symm

/-- C4 amended: for every writer entry point, failure to acquire a pooled
session yields `Client`, and prepare, execute and commit failures yield
`DBError`; transaction-creation failure yields `DBError` in the three
aircraft writers but `Client` in `update_flight_path` (and in
`update_flight_path` a missing pool handle yields `DBError`, modelled by
the `poolHandle` step). -/
theorem writer_error_mapping :
    (∀ (o : DbOracle) (tbl : List AircraftRow) (reqs : List ReqAircraftId)
        (recs : List AircraftId), reqs ≠ [] → reqs.mapM AircraftId.tryFrom = .ok recs →
      (o.poolGet = false → update_aircraft_id o tbl reqs = .error (.aircraft .client)) ∧
      (o.poolGet = true → o.transactionCreate = false →
        update_aircraft_id o tbl reqs = .error (.aircraft .dbError)) ∧
      (o.poolGet = true → o.transactionCreate = true → o.prepare = false →
        update_aircraft_id o tbl reqs = .error (.aircraft .dbError)) ∧
      (∀ e, o.poolGet = true → o.transactionCreate = true → o.prepare = true →
        update_aircraft_id o tbl reqs = .error e → e = .aircraft .dbError)) ∧
    (∀ (o : DbOracle) (tbl : List AircraftRow) (reqs : List ReqAircraftPos)
        (recs : List AircraftPosition), reqs ≠ [] →
        reqs.mapM AircraftPosition.tryFrom = .ok recs →
      (o.poolGet = false → update_aircraft_position o tbl reqs = .error (.aircraft .client)) ∧
      (o.poolGet = true → o.transactionCreate = false →
        update_aircraft_position o tbl reqs = .error (.aircraft .dbError)) ∧
      (o.poolGet = true → o.transactionCreate = true → o.prepare = false →
        update_aircraft_position o tbl reqs = .error (.aircraft .dbError)) ∧
      (∀ e, o.poolGet = true → o.transactionCreate = true → o.prepare = true →
        update_aircraft_position o tbl reqs = .error e → e = .aircraft .dbError)) ∧
    (∀ (o : DbOracle) (tbl : List AircraftRow) (reqs : List ReqAircraftVelocity)
        (recs : List AircraftVelocity), reqs ≠ [] →
        reqs.mapM AircraftVelocity.tryFrom = .ok recs →
      (o.poolGet = false → update_aircraft_velocity o tbl reqs = .error (.aircraft .client)) ∧
      (o.poolGet = true → o.transactionCreate = false →
        update_aircraft_velocity o tbl reqs = .error (.aircraft .dbError)) ∧
      (o.poolGet = true → o.transactionCreate = true → o.prepare = false →
        update_aircraft_velocity o tbl reqs = .error (.aircraft .dbError)) ∧
      (∀ e, o.poolGet = true → o.transactionCreate = true → o.prepare = true →
        update_aircraft_velocity o tbl reqs = .error e → e = .aircraft .dbError)) ∧
    (∀ (dist : PointZ → PointZ → ℚ) (o : FlightOracle) (db : GisDb)
        (req : UpdateFlightPathRequest) (fid : String) (ts te : Timestamp)
        (atype : AircraftType) (points : List PointZ) (segs : List FlightSegment),
        req.flight_identifier = some fid → check_flight_identifier fid = true →
        req.timestamp_start = some ts → req.timestamp_end = some te →
        AircraftType.fromI32 req.aircraft_type = some atype →
        req.path.mapM PointZ.tryFromGrpc = some points →
        segmentize dist points ts te MAX_FLIGHT_SEGMENT_LENGTH_METERS = .ok segs →
        o.poolHandle = true →
      (o.poolGet = false → update_flight_path dist o db req = .error (.flightPath .client)) ∧
      (o.poolGet = true → o.transactionCreate = false →
        update_flight_path dist o db req = .error (.flightPath .client)) ∧
      (∀ e, o.poolGet = true → o.transactionCreate = true →
        update_flight_path dist o db req = .error e → e = .flightPath .dbError)) :=
  ⟨fun o tbl reqs recs hne hconv => update_aircraft_id_errors o tbl reqs recs hne hconv,
   fun o tbl reqs recs hne hconv => update_aircraft_position_errors o tbl reqs recs hne hconv,
   fun o tbl reqs recs hne hconv => update_aircraft_velocity_errors o tbl reqs recs hne hconv,
   fun dist o db req fid ts te atype points segs hfid hchk hts hte hat hpts hseg hph =>
     update_flight_path_errors dist o db req fid ts te atype points segs hfid hchk hts hte
       hat hpts hseg hph⟩

/-- C4 counterexample: in `update_flight_path`, a transaction-creation
failure (pool handle and session fine) returns `Client`, not the `DBError`
the claim requires for transaction creation. -/
theorem flight_transaction_failure_client_cex :
    update_flight_path dist40 flightOracleTxnFail dbEmpty reqC1 = .error (.flightPath .client) ∧
    FlightError.client ≠ FlightError.dbError := by
  decide

/-- C4 witness: a pool failure in the position writer yields `Client`; the
transaction-creation failure in the flight writer yields `Client`. -/
theorem writer_error_mapping_witness :
    update_aircraft_position oracleNoPool [] [reqPosM] = .error (.aircraft .client) ∧
    update_flight_path dist40 flightOracleTxnFail dbEmpty reqC1 = .error (.flightPath .client) :=
  ⟨(writer_error_mapping.2.1 oracleNoPool [] [reqPosM] [posM] (by decide) (by decide)).1 rfl,
   (writer_error_mapping.2.2.2 dist40 flightOracleTxnFail dbEmpty reqC1 "F1" 0 100
      .undeclared [pA, pB] segC1 (by decide) (by decide) (by decide) (by decide) (by decide)
      (by decide) (by decide) rfl).2.1 rfl rfl⟩

/-- C1: on a validated request, `update_flight_path` either fails with an
error — in which case no state was committed and the stored state is the
prior one — or succeeds with exactly the atomic full replacement: the
flight row UPSERTed with `isa = ST_Envelope` of the new geometry from the
same statement, every prior segment of this `flight_identifier` deleted,
and precisely the freshly segmentized rows inserted. No other final state
is reachable. -/
theorem update_flight_path_atomic (dist : PointZ → PointZ → ℚ) (o : FlightOracle)
    (db : GisDb) (req : UpdateFlightPathRequest) (fid : String) (ts te : Timestamp)
    (atype : AircraftType) (points : List PointZ) (segs : List FlightSegment)
    (hfid : req.flight_identifier = some fid)
    (hchk : check_flight_identifier fid = true)
    (hts : req.timestamp_start = some ts)
    (hte : req.timestamp_end = some te)
    (hat : AircraftType.fromI32 req.aircraft_type = some atype)
    (hpts : req.path.mapM PointZ.tryFromGrpc = some points)
    (hseg : segmentize dist points ts te MAX_FLIGHT_SEGMENT_LENGTH_METERS = .ok segs) :
    update_flight_path dist o db req =
      .ok { aircraft := db.aircraft,
            flights := upsertFlight db.flights
              { flight_identifier := fid, aircraft_identifier := req.aircraft_identifier,
                aircraft_type := atype, simulated := req.simulated, geom := some points,
                isa := stEnvelope points, time_start := some ts, time_end := some te },
            flight_segments := db.flight_segments.filter
                (fun s => !(s.flight_identifier == fid)) ++ segs.map (segRow fid) } ∨
    ∃ e, update_flight_path dist o db req = .error e := by
  cases hres : update_flight_path dist o db req with
  | error e => exact Or.inr ⟨e, rfl⟩
  | ok db3 =>
    left
    unfold update_flight_path validate_flight_path at hres
    rw [hfid, hts, hte, hat] at hres
    simp only [hchk, hpts, hseg, Bool.not_true, Bool.false_eq_true, if_false] at hres
    by_cases hph : o.poolHandle = true
    · by_cases hpg : o.poolGet = true
      · by_cases htc : o.transactionCreate = true
        · by_cases he0 : o.execute 0 = true
          · by_cases he1 : o.execute 1 = true
            · simp only [hph, hpg, htc, he0, he1, Bool.not_true, Bool.false_eq_true,
                if_false] at hres
              cases hins : insertSegments o 2 (segs.map (segRow fid))
                  { db with
                    flights := upsertFlight db.flights
                      { flight_identifier := fid,
                        aircraft_identifier := req.aircraft_identifier,
                        aircraft_type := atype, simulated := req.simulated,
                        geom := some points, isa := stEnvelope points,
                        time_start := some ts, time_end := some te },
                    flight_segments := db.flight_segments.filter
                      (fun s => !(s.flight_identifier == fid)) } with
              | error e1 =>
                rw [hins] at hres
                simp at hres
              | ok db4 =>
                rw [hins] at hres
                by_cases hc : o.commit = true
                · simp only [hc, Bool.not_true, Bool.false_eq_true, if_false,
                    Except.ok.injEq] at hres
                  rw [← hres]
                  rw [insertSegments_ok_append o (segs.map (segRow fid)) 2 _ db4 hins]
                · simp [hc] at hres
            · simp [hph, hpg, htc, he0, he1] at hres
          · simp [hph, hpg, htc, he0] at hres
        · simp [hph, hpg, htc] at hres
      · simp [hph, hpg] at hres
    · simp [hph] at hres

/-- C1 witness: the concrete request `reqC1` against `dbC1` (which holds a
stale `F1` row, a stale `F1` segment and an unrelated `F2` segment) with an
all-succeeding session. -/
theorem update_flight_path_atomic_witness :
    update_flight_path dist40 flightOracleAll dbC1 reqC1 =
      .ok { aircraft := dbC1.aircraft,
            flights := upsertFlight dbC1.flights
              { flight_identifier := "F1", aircraft_identifier := reqC1.aircraft_identifier,
                aircraft_type := .undeclared, simulated := reqC1.simulated,
                geom := some [pA, pB], isa := stEnvelope [pA, pB],
                time_start := some 0, time_end := some 100 },
            flight_segments := dbC1.flight_segments.filter
                (fun s => !(s.flight_identifier == "F1")) ++ segC1.map (segRow "F1") } ∨
    ∃ e, update_flight_path dist40 flightOracleAll dbC1 reqC1 = .error e :=
  update_flight_path_atomic dist40 flightOracleAll dbC1 reqC1 "F1" 0 100 .undeclared
    [pA, pB] segC1 (by decide) (by decide) (by decide) (by decide) (by decide) (by decide)
    (by decide)

/-- C6 amended: a successful `get_flights` returns exactly the rows of the
`FROM aircraft LEFT JOIN flights` join that satisfy the disjunction —
every returned row stems from an aircraft row; a flight joined to no
aircraft row is never returned, however its polyline and window relate. -/
theorem get_flights_rows_characterization (lineIntersects : Envelope → List PointZ → Bool)
    (o : DbOracle) (db : GisDb) (request : GetFlightsRequest) (t2 t3 : Timestamp)
    (rows : List GetFlightsRow)
    (h2 : request.time_start = some t2) (h3 : request.time_end = some t3)
    (h : get_flights lineIntersects o db request = .ok rows) :
    ∀ r, r ∈ rows ↔ ∃ j ∈ leftJoinFlights db,
      (aircraftCond (windowEnvelope request) t2 t3 j.1 = true ∨
        flightCond lineIntersects (windowEnvelope request) t2 t3 j.2 = true) ∧
      r = getFlightsProj j := by
  unfold get_flights at h
  rw [h2, h3] at h
  by_cases hpg : o.poolGet = true
  · by_cases hpr : o.prepare = true
    · by_cases he0 : o.execute 0 = true
      · simp only [hpg, hpr, he0, Bool.not_true, Bool.false_eq_true, if_false,
          Except.ok.injEq] at h
        subst h
        intro r
        simp only [List.mem_map, List.mem_filter, Bool.or_eq_true]
        constructor
        · rintro ⟨j, ⟨hj, hcond⟩, rfl⟩
          exact ⟨j, hj, hcond, rfl⟩
        · rintro ⟨j, hj, hcond, rfl⟩
          exact ⟨j, ⟨hj, hcond⟩, rfl⟩
      · simp [hpg, hpr, he0] at h
    · simp [hpg, hpr] at h
  · simp [hpg] at h

/-- C6 counterexample: `flightC6` satisfies the flight-side disjunct for
the window, yet on a database with no aircraft rows `get_flights` returns
nothing — the statement is `FROM aircraft LEFT JOIN flights`, so the result
is not "exactly the rows satisfying the disjunction". -/
theorem get_flights_missing_aircraft_cex :
    flightCond lineTrue (windowEnvelope reqWindow) 0 10 (some flightC6) = true ∧
    get_flights lineTrue oracleAll dbFlightNoAircraft reqWindow = .ok [] := by
  decide

/-- C6 witness for the amended characterization: the concrete database in
which flight `F6` is joined to its aircraft row `M`, at the returned row. -/
theorem get_flights_rows_characterization_witness :
    getFlightsProj (rowM, some flightC6) ∈ [getFlightsProj (rowM, some flightC6)] ↔
      ∃ j ∈ leftJoinFlights dbFlightWithAircraft,
        (aircraftCond (windowEnvelope reqWindow) 0 10 j.1 = true ∨
          flightCond lineTrue (windowEnvelope reqWindow) 0 10 j.2 = true) ∧
        getFlightsProj (rowM, some flightC6) = getFlightsProj j :=
  get_flights_rows_characterization lineTrue oracleAll dbFlightWithAircraft reqWindow 0 10
    [getFlightsProj (rowM, some flightC6)] (by decide) (by decide) (by decide)
    (getFlightsProj (rowM, some flightC6))

end SvcGis
